import Mathlib

/-!
Verification development for the F5 LBaaSv2 driver
(`f5lbaasdriver/v2/bigip/driver_v2.py`).

The definitions below are a shallow embedding of the driver code:

* `scheduleAgentAndDevice` embeds `EntityManager._schedule_agent_and_device`
  (source lines 192-335), with the external collaborators (binding lookup,
  device loading, agent/device schedulers, configuration) supplied as an
  explicit environment and the device-leasing retry loop driven by the list
  of deadlock backoff intervals the random number generator would produce.
* `appendListeners` / `appendPoolsMonitors` embed the service-descriptor
  helpers `_append_listeners` / `_append_pools_monitors` (lines 349-432).
* `updateAclGroup` embeds `ACLGroupManager.update_acl_group`
  (lines 1423-1475), with the per-loadbalancer binding resolution supplied
  as an oracle.
* `lifecycleOp` / `addAclBind` embed the uniform try/except shape of the
  entity manager CRUD methods and of `ACLGroupManager.add_acl_bind`.
-/

namespace DriverV2

/-- Characters of `s` start with the pattern `p` (Python `s.startswith(p)`
at the character-list level). -/
def charsStartWith : List Char → List Char → Bool
  | _, [] => true
  | [], _ :: _ => false
  | c :: cs, p :: ps => decide (c = p) && charsStartWith cs ps

/-- The pattern `p` occurs somewhere inside `cs` (substring containment). -/
def charsContain : List Char → List Char → Bool
  | [], p => charsStartWith [] p
  | c :: cs, p => charsStartWith (c :: cs) p || charsContain cs p

/-- Python `sub in s` on strings: substring containment. -/
def strIn (sub s : String) : Bool :=
  charsContain s.data sub.data

/-- Agent record as read by the scheduler: liveness and admin state
(`agent["alive"]`, `agent["admin_state_up"]`), identity and host. -/
structure Agent where
  id : String
  host : String
  alive : Bool
  admin_state_up : Bool
deriving Repr, DecidableEq

/-- Device record as read by the scheduler. -/
structure Device where
  id : String
  admin_state_up : Bool
deriving Repr, DecidableEq

/-- The load balancer fields consulted by `_schedule_agent_and_device`. -/
structure LoadBalancer where
  id : String
  name : String
  provisioning_status : String
deriving Repr, DecidableEq

/-- `neutron_lib.constants.PENDING_CREATE`. -/
def PENDING_CREATE : String := "PENDING_CREATE"

/-- `neutron_lib.constants.PENDING_DELETE`. -/
def PENDING_DELETE : String := "PENDING_DELETE"

/-- A row of the `LoadbalancerAgentBinding` table. -/
structure Binding where
  loadbalancer_id : String
  agent_id : String
  device_id : String
deriving Repr, DecidableEq

/-- Errors raised by `_schedule_agent_and_device`:
`LbaasDeviceDisappeared`, `LbaasDeviceDisabled`, `DeviceSchedulerBusy`,
and the bare `Exception` raised on a missing binding in an unexpected
provisioning state. -/
inductive SchedErr where
  | deviceDisappeared (loadbalancer_id device_id : String)
  | deviceDisabled (loadbalancer_id device_id : String)
  | schedulerBusy (loadbalancer_id : String)
  | noBindingInconsistency (loadbalancer_id : String)
deriving Repr, DecidableEq

/-- The sentinel device id the driver writes into a fresh placeholder
binding row (source line 285: `binding.device_id = "unknown"`). -/
def placeholderDeviceId : String := "unknown"

/-- The device id value the locked query filters on when leasing a device
(source line 299: `filter_by(device_id="unknown")`). -/
def lockFilterDeviceId : String := "unknown"

/-- The placeholder binding row inserted before a device is leased
(source lines 282-285). -/
def placeholderBinding (lbId agentId : String) : Binding :=
  { loadbalancer_id := lbId, agent_id := agentId, device_id := placeholderDeviceId }

/-- The wait ceiling of the device-leasing retry loop
(source line 287: `max_wait = 30`). -/
def maxWait : ℚ := 30

/-- The device-leasing retry loop (source lines 287-330), driven by the
list of backoff intervals drawn by `random.uniform(0, 1.0)` on the
attempts that hit a `DBDeadlock`; once the list is exhausted the next
attempt succeeds and commits the scheduled device into the row.  Each
deadlocked attempt is rolled back whole (the placeholder insert included),
so on the `DeviceSchedulerBusy` path nothing is committed; on success the
committed row carries the scheduled device id. -/
def leaseLoop (lbId : String) (agent : Agent) (dev : Device) :
    ℚ → List ℚ → Except SchedErr (Binding × Device)
  | _, [] =>
      .ok ({ loadbalancer_id := lbId, agent_id := agent.id, device_id := dev.id }, dev)
  | wait, i :: rest =>
      if wait + i ≤ maxWait then
        leaseLoop lbId agent dev (wait + i) rest
      else
        .error (.schedulerBusy lbId)

/-- External collaborators and configuration of
`_schedule_agent_and_device`:
`bindingLookup` is the result of `get_agent_hosting_loadbalancer`
(the bound agent and the bound device id, when a binding exists);
`loadDevice` is `device_scheduler.load_device`; `scheduleAgent` and
`scheduleDevice` are the values the pluggable schedulers return;
`specialPfx` is `cfg.CONF.special_lb_name_prefix`; `leaseConflicts` is
the stream of deadlock backoff intervals of the leasing loop. -/
structure SchedEnv where
  bindingLookup : Option (Agent × String)
  loadDevice : String → Option Device
  scheduleAgent : Agent
  scheduleDevice : Device
  specialPfx : String
  leaseConflicts : List ℚ

/-- Outcome of one `_schedule_agent_and_device` call: the returned pair
(or the raised error) together with the binding row committed for this
load balancer at the end of the call (`none` when no row is committed). -/
structure SchedOutcome where
  result : Except SchedErr (Option Agent × Option Device)
  binding : Option Binding
deriving Repr

/-- The disabled-device fallback test (source lines 235-243):
`name and cfg.CONF.special_lb_name_prefix and
 cfg.CONF.special_lb_name_prefix in name and
 (cfg.CONF.special_lb_name_prefix + device_id[:8]) in name`. -/
def specialNameMatch (pfx name deviceId : String) : Bool :=
  decide (name ≠ "") && decide (pfx ≠ "") && strIn pfx name &&
    strIn (pfx ++ String.take deviceId 8) name

/-- Shallow embedding of `EntityManager._schedule_agent_and_device`
(source lines 192-335). -/
def scheduleAgentAndDevice (env : SchedEnv) (lb : LoadBalancer) : SchedOutcome :=
  match env.bindingLookup with
  | some (agent0, deviceId) =>
      -- Existing binding: rebind the agent when it is dead or disabled
      -- (lines 208-224), then load and check the bound device.
      let agent :=
        if agent0.alive && agent0.admin_state_up then agent0 else env.scheduleAgent
      let row : Binding :=
        { loadbalancer_id := lb.id, agent_id := agent.id, device_id := deviceId }
      match env.loadDevice deviceId with
      | some device =>
          if device.admin_state_up then
            { result := .ok (some agent, some device), binding := some row }
          else if specialNameMatch env.specialPfx lb.name deviceId then
            { result := .ok (some agent, some device), binding := some row }
          else
            { result := .error (.deviceDisabled lb.id deviceId), binding := some row }
      | none =>
          { result := .error (.deviceDisappeared lb.id deviceId), binding := some row }
  | none =>
      -- No binding (lines 257-335).
      if lb.provisioning_status = PENDING_CREATE then
        match leaseLoop lb.id env.scheduleAgent env.scheduleDevice 0 env.leaseConflicts with
        | .ok (row, device) =>
            { result := .ok (some env.scheduleAgent, some device), binding := some row }
        | .error e =>
            { result := .error e, binding := none }
      else if lb.provisioning_status = PENDING_DELETE then
        { result := .ok (none, none), binding := none }
      else
        { result := .error (.noBindingInconsistency lb.id), binding := none }

/-- A pool member (only its id is consulted by the descriptor builder). -/
structure Member where
  id : String
deriving Repr, DecidableEq

/-- An L7 policy (only its id is consulted by the descriptor builder). -/
structure L7Policy where
  id : String
deriving Repr, DecidableEq

/-- A health monitor (only its id is consulted by the descriptor builder). -/
structure HealthMonitor where
  id : String
deriving Repr, DecidableEq

/-- The pool fields consulted by `_append_pools_monitors`: its members,
L7 policies, optional session persistence payload (kept opaque) and
optional health monitor. -/
structure Pool where
  id : String
  members : List Member
  l7_policies : List L7Policy
  session_persistence : Option String
  healthmonitor : Option HealthMonitor
deriving Repr, DecidableEq

/-- The listener fields consulted by `_append_listeners`. -/
structure Listener where
  id : String
  l7_policies : List L7Policy
  default_pool : Option Pool
deriving Repr, DecidableEq

/-- The dictionary `_append_listeners` appends to `service["listeners"]`:
the base fields come from the (possibly re-read) listener, the policy id
list from the in-memory listener, and `default_pool_id` is present only
when the listener has a default pool. -/
structure ListenerEntry where
  id : String
  l7_policy_ids : List String
  default_pool_id : Option String
deriving Repr, DecidableEq

/-- The dictionary `_append_pools_monitors` appends to `service["pools"]`:
member and policy id lists from the in-memory pool, and the
session-persistence payload present only when the pool has one. -/
structure PoolEntry where
  id : String
  member_ids : List String
  l7_policy_ids : List String
  session_persistence : Option String
deriving Repr, DecidableEq

/-- The dictionary `_append_pools_monitors` appends to
`service["healthmonitors"]`, with the owning pool id stamped on. -/
structure MonitorEntry where
  id : String
  pool_id : String
deriving Repr, DecidableEq

/-- The parts of the service descriptor written by the two append
helpers. -/
structure Service where
  listeners : List ListenerEntry
  pools : List PoolEntry
  healthmonitors : List MonitorEntry
deriving Repr, DecidableEq

/-- The store re-reads done by the helpers when
`cfg.CONF.f5_driver_perf_mode != 3` (`db.get_listener`, `db.get_pool`,
`db.get_healthmonitor`), supplied as oracles. -/
structure DBOracle where
  getListener : String → Listener
  getPool : String → Pool
  getHealthmonitor : String → HealthMonitor

/-- Shallow embedding of `EntityManager._append_listeners`
(source lines 349-376).  `perfMode` is `cfg.CONF.f5_driver_perf_mode`. -/
def appendListeners (perfMode : Nat) (db : DBOracle) (service : Service)
    (listener : Option Listener) : Service :=
  match listener with
  | none => service
  | some l =>
      let dbListener := if perfMode = 3 then l else db.getListener l.id
      let entry : ListenerEntry :=
        { id := dbListener.id
          l7_policy_ids := l.l7_policies.map L7Policy.id
          default_pool_id := l.default_pool.map Pool.id }
      { service with listeners := service.listeners ++ [entry] }

/-- Shallow embedding of `EntityManager._append_pools_monitors`
(source lines 378-432). -/
def appendPoolsMonitors (perfMode : Nat) (db : DBOracle) (service : Service)
    (pool : Option Pool) : Service :=
  match pool with
  | none => service
  | some p =>
      let dbPool := if perfMode = 3 then p else db.getPool p.id
      let entry : PoolEntry :=
        { id := dbPool.id
          member_ids := p.members.map Member.id
          l7_policy_ids := p.l7_policies.map L7Policy.id
          session_persistence := p.session_persistence }
      let service1 := { service with pools := service.pools ++ [entry] }
      match p.healthmonitor with
      | none => service1
      | some hm =>
          let dbHm := if perfMode = 3 then hm else db.getHealthmonitor hm.id
          let hmEntry : MonitorEntry := { id := dbHm.id, pool_id := p.id }
          { service1 with healthmonitors := service1.healthmonitors ++ [hmEntry] }

/-- The load balancer dictionary handled by `ACLGroupManager`
(kept to the fields the manager consults). -/
structure LBDict where
  id : String
  provider : String
deriving Repr, DecidableEq

/-- The service payload `ACLGroupManager._setup_crud` builds for one
load balancer: `service["loadbalancer"]` and `service["device"]`. -/
structure ACLService where
  loadbalancer : LBDict
  device : Device
deriving Repr, DecidableEq

/-- One `agent_rpc.update_acl_group` call issued by `update_acl_group`. -/
structure ACLDispatch where
  agent_host : String
  service : ACLService
  acl_group : String
deriving Repr, DecidableEq

/-- Python dictionary assignment `d[k] = v` on an insertion-ordered
association list: an existing key keeps its position and gets the new
value, a fresh key is appended at the end. -/
def dictUpsert (k : String) (v : α) : List (String × α) → List (String × α)
  | [] => [(k, v)]
  | (k0, v0) :: rest =>
      if k0 = k then (k, v) :: rest else (k0, v0) :: dictUpsert k v rest

/-- One iteration of the first loop of `update_acl_group`
(source lines 1444-1455): resolve the binding of one load balancer and
store its service under the resolved device id. -/
def aclStep (resolve : LBDict → String × Device) (aclGroup : String)
    (acc : List (String × ACLDispatch)) (lb : LBDict) :
    List (String × ACLDispatch) :=
  let host := (resolve lb).1
  let dev := (resolve lb).2
  dictUpsert dev.id
    { agent_host := host
      service := { loadbalancer := lb, device := dev }
      acl_group := aclGroup } acc

/-- Shallow embedding of `ACLGroupManager.update_acl_group`
(source lines 1423-1475): filter the load balancers by provider, resolve
each one into the `service_devices` dictionary keyed by device id, then
dispatch once per dictionary entry.  `resolve` is the oracle for
`_setup_crud` (agent host and device per load balancer). -/
def updateAclGroup (provider : String) (resolve : LBDict → String × Device)
    (aclGroup : String) (lbs : List LBDict) : List ACLDispatch :=
  let active := lbs.filter fun lb => lb.provider = provider
  if active.isEmpty then []
  else ((active.foldl (aclStep resolve aclGroup) []).map Prod.snd)

/-- A status-update effect issued through
`driver.plugin.db.update_status` (model kind, entity id, status). -/
structure StatusUpdate where
  kind : String
  entity_id : String
  status : String
deriving Repr, DecidableEq

/-- `plugin_constants.ERROR`. -/
def ERROR : String := "ERROR"

/-- Shallow embedding of `EntityManager._handle_entity_error`
(source lines 139-147): update the load balancer status when a
`loadbalancer_id` argument is passed, and the entity status when the
manager has a model class. -/
def handleEntityError (modelKind : Option String) (entityId : String)
    (lbId : Option String) : List StatusUpdate :=
  (match lbId with
   | some lb => [{ kind := "loadbalancer", entity_id := lb, status := ERROR }]
   | none => []) ++
  (match modelKind with
   | some kind => [{ kind := kind, entity_id := entityId, status := ERROR }]
   | none => [])

/-- Shallow embedding of the uniform `try/except` shape shared by every
CRUD method of the seven entity managers (for example
`ListenerManager.update`, lines 654-677): the body performs binding
resolution, descriptor building and dispatch and either succeeds or
raises; on an exception the manager calls `_handle_entity_error`
(with the owning load balancer id when one is passed) and re-raises the
same exception.  The result pairs the issued status updates with the
propagated outcome. -/
def lifecycleOp (modelKind : Option String) (entityId : String)
    (lbId : Option String) (body : Except String Unit) :
    List StatusUpdate × Except String Unit :=
  match body with
  | .ok _ => ([], .ok ())
  | .error e => (handleEntityError modelKind entityId lbId, .error e)

/-- Shallow embedding of `ACLGroupManager.add_acl_bind`
(source lines 1322-1370): a provider mismatch returns silently; otherwise
the body (binding resolution plus dispatch) either succeeds or raises, and
an exception is wrapped into `ACLBindError` and re-raised with no status
update issued. -/
def addAclBind (provider : String) (lb : LBDict)
    (body : Except String Unit) : List StatusUpdate × Except String Unit :=
  if lb.provider ≠ provider then ([], .ok ())
  else
    match body with
    | .ok _ => ([], .ok ())
    | .error e => ([], .error ("ACLBindError: " ++ e))

/-! Concrete sample data used by the witnesses and counterexamples. -/

/-- Sample alive and enabled agent. -/
def agentAliveEx : Agent :=
  { id := "agent-1", host := "host-1", alive := true, admin_state_up := true }

/-- Sample dead agent (bound to a load balancer before it died). -/
def agentDeadEx : Agent :=
  { id := "agent-dead", host := "host-2", alive := false, admin_state_up := true }

/-- Sample replacement agent returned by the agent scheduler. -/
def agentNewEx : Agent :=
  { id := "agent-new", host := "host-3", alive := true, admin_state_up := true }

/-- Sample enabled device returned by the device scheduler. -/
def deviceEx : Device := { id := "dev-9", admin_state_up := true }

/-- Sample disabled device whose id starts with `abc12345`. -/
def devDisabledEx : Device := { id := "abc12345-dev-0001", admin_state_up := false }

/-- Sample enabled device already bound before its agent died. -/
def deviceOldEx : Device := { id := "dev-old", admin_state_up := true }

/-- Environment for the disabled-device fallback scenario: an existing
binding to an alive agent whose device is loaded but disabled. -/
def envC2 : SchedEnv :=
  { bindingLookup := some (agentAliveEx, "abc12345-dev-0001")
    loadDevice := fun _ => some devDisabledEx
    scheduleAgent := agentNewEx
    scheduleDevice := deviceEx
    specialPfx := "special-"
    leaseConflicts := [] }

/-- Load balancer named with the special prefix plus the first 8
characters of the bound device id. -/
def lbC2 : LoadBalancer :=
  { id := "lb-2", name := "special-abc12345-vip", provisioning_status := "ACTIVE" }

/-- Environment for the dead-agent rebinding scenario. -/
def envC5 : SchedEnv :=
  { bindingLookup := some (agentDeadEx, "dev-old")
    loadDevice := fun _ => some deviceOldEx
    scheduleAgent := agentNewEx
    scheduleDevice := deviceEx
    specialPfx := ""
    leaseConflicts := [] }

/-- Load balancer bound to the dead agent. -/
def lbC5 : LoadBalancer :=
  { id := "lb-5", name := "lb-five", provisioning_status := "ACTIVE" }

/-- Environment with no existing binding and no lease conflicts. -/
def envC6 : SchedEnv :=
  { bindingLookup := none
    loadDevice := fun _ => none
    scheduleAgent := agentNewEx
    scheduleDevice := deviceEx
    specialPfx := ""
    leaseConflicts := [] }

/-- Load balancer in pending delete with no binding row. -/
def lbC6 : LoadBalancer :=
  { id := "lb-6", name := "lb-six", provisioning_status := PENDING_DELETE }

/-- Environment whose device-leasing loop hits 31 deadlocks with backoff
0.99 each, so the accumulated wait would pass the 30-unit ceiling. -/
def envC3 : SchedEnv :=
  { bindingLookup := none
    loadDevice := fun _ => none
    scheduleAgent := agentNewEx
    scheduleDevice := deviceEx
    specialPfx := ""
    leaseConflicts := List.replicate 31 ((99 : ℚ) / 100) }

/-- Load balancer being created while the lease loop stays contended. -/
def lbC3 : LoadBalancer :=
  { id := "lb-3", name := "lb-three", provisioning_status := PENDING_CREATE }

/-- Sample devices for the ACL-group batching scenario. -/
def devA : Device := { id := "devA", admin_state_up := true }

/-- Second sample device for the ACL-group batching scenario. -/
def devB : Device := { id := "devB", admin_state_up := true }

/-- Three load balancers of the local provider. -/
def lbD1 : LBDict := { id := "lb1", provider := "f5" }

/-- Second load balancer, resolving to the same device as the first. -/
def lbD2 : LBDict := { id := "lb2", provider := "f5" }

/-- Third load balancer, resolving to its own device. -/
def lbD3 : LBDict := { id := "lb3", provider := "f5" }

/-- Binding resolution oracle: `lb1` and `lb2` resolve to device `devA`
on host `h1`, `lb3` to device `devB` on host `h2`. -/
def resolveEx : LBDict → String × Device :=
  fun lb => if lb.id = "lb3" then ("h2", devB) else ("h1", devA)

/-- Trivial store oracle for the descriptor-builder witnesses. -/
def dbEx : DBOracle :=
  { getListener := fun i => { id := i, l7_policies := [], default_pool := none }
    getPool := fun i =>
      { id := i, members := [], l7_policies := []
        session_persistence := none, healthmonitor := none }
    getHealthmonitor := fun i => { id := i } }

/-- Empty service descriptor. -/
def svc0 : Service := { listeners := [], pools := [], healthmonitors := [] }

/-- Pool with three members and one health monitor. -/
def poolEx : Pool :=
  { id := "pool1"
    members := [{ id := "m1" }, { id := "m2" }, { id := "m3" }]
    l7_policies := [{ id := "l7p1" }]
    session_persistence := some "SOURCE_IP"
    healthmonitor := some { id := "hm1" } }

/-- Pool without a health monitor. -/
def poolNoMonEx : Pool :=
  { id := "pool2", members := [], l7_policies := []
    session_persistence := none, healthmonitor := none }

/-! Helper lemmas on substring containment. -/

theorem charsStartWith_of_append {cs p q : List Char}
    (h : charsStartWith cs (p ++ q) = true) : charsStartWith cs p = true := by
  induction p generalizing cs with
  | nil => cases cs <;> rfl
  | cons a as ih =>
      cases cs with
      | nil => simp [charsStartWith] at h
      | cons c cs =>
          rw [List.cons_append] at h
          simp only [charsStartWith, Bool.and_eq_true] at h ⊢
          exact ⟨h.1, ih h.2⟩

theorem charsContain_of_append {cs p q : List Char}
    (h : charsContain cs (p ++ q) = true) : charsContain cs p = true := by
  induction cs with
  | nil =>
      cases p with
      | nil => rfl
      | cons a as => rw [List.cons_append] at h; simp [charsContain, charsStartWith] at h
  | cons c cs ih =>
      simp only [charsContain, Bool.or_eq_true] at h ⊢
      rcases h with h | h
      · exact Or.inl (charsStartWith_of_append h)
      · exact Or.inr (ih h)

theorem charsContain_ne_nil {cs p : List Char} (hp : p ≠ [])
    (h : charsContain cs p = true) : cs ≠ [] := by
  intro hcs
  subst hcs
  cases p with
  | nil => exact hp rfl
  | cons a as => simp [charsContain, charsStartWith] at h

theorem strIn_of_append {a b s : String} (h : strIn (a ++ b) s = true) :
    strIn a s = true := by
  unfold strIn at h ⊢
  rw [String.data_append] at h
  exact charsContain_of_append h

theorem data_ne_nil_of_ne_empty {s : String} (h : s ≠ "") : s.data ≠ [] := by
  intro hd
  exact h (String.ext hd)

theorem strIn_target_ne_empty {sub s : String} (hsub : sub ≠ "")
    (h : strIn sub s = true) : s ≠ "" := by
  intro hs
  subst hs
  unfold strIn at h
  have h0 : ("" : String).data = [] := rfl
  rw [h0] at h
  exact charsContain_ne_nil (data_ne_nil_of_ne_empty hsub) h rfl

theorem append_ne_empty_left {a b : String} (ha : a ≠ "") : a ++ b ≠ "" := by
  intro h
  apply data_ne_nil_of_ne_empty ha
  have hd : (a ++ b).data = [] := by rw [h]
  rw [String.data_append] at hd
  exact (List.append_eq_nil.mp hd).1

/-- With a configured (non-empty) special prefix, the fallback test of
source lines 235-243 holds exactly when the combined string of the prefix
and the first 8 characters of the device id occurs in the name. -/
theorem specialNameMatch_iff {pfx name did : String} (h : pfx ≠ "") :
    specialNameMatch pfx name did = true ↔
      strIn (pfx ++ String.take did 8) name = true := by
  unfold specialNameMatch
  simp only [Bool.and_eq_true, decide_eq_true_eq]
  constructor
  · intro hall
    exact hall.2
  · intro hin
    exact ⟨⟨⟨strIn_target_ne_empty (append_ne_empty_left h) hin, h⟩,
      strIn_of_append hin⟩, hin⟩

/-! Helper lemmas on the device-leasing retry loop. -/

theorem leaseLoop_busy_of_sum (lbId : String) (a : Agent) (d : Device) :
    ∀ (l : List ℚ) (w : ℚ), w ≤ maxWait → maxWait < w + l.sum →
      leaseLoop lbId a d w l = .error (.schedulerBusy lbId) := by
  intro l
  induction l with
  | nil =>
      intro w hw hsum
      rw [List.sum_nil, add_zero] at hsum
      exact absurd hw (not_le.mpr hsum)
  | cons i rest ih =>
      intro w hw hsum
      rw [leaseLoop]
      split
      case isTrue hle =>
          apply ih (w + i) hle
          rw [List.sum_cons] at hsum
          linarith
      case isFalse hle => rfl

theorem leaseLoop_cases (lbId : String) (a : Agent) (d : Device) :
    ∀ (l : List ℚ) (w : ℚ),
      leaseLoop lbId a d w l = .error (.schedulerBusy lbId) ∨
      leaseLoop lbId a d w l =
        .ok ({ loadbalancer_id := lbId, agent_id := a.id, device_id := d.id }, d) := by
  intro l
  induction l with
  | nil => intro w; exact Or.inr rfl
  | cons i rest ih =>
      intro w
      rw [leaseLoop]
      split
      case isTrue hle => exact ih (w + i)
      case isFalse hle => exact Or.inl rfl

/-- C2: for an existing binding whose agent is alive and enabled but
whose device loads with `admin_state_up = false`, the resolve call
accepts the disabled device exactly when the load balancer name carries
the configured special prefix followed by the first 8 characters of the
device id; otherwise it fails with the device-disabled error. -/
theorem spec_c2_disabled_device_fallback
    (env : SchedEnv) (lb : LoadBalancer) (agent : Agent) (did : String) (dev : Device)
    (hb : env.bindingLookup = some (agent, did))
    (halive : agent.alive = true) (hup : agent.admin_state_up = true)
    (hd : env.loadDevice did = some dev)
    (hdev : dev.admin_state_up = false)
    (hpfx : env.specialPfx ≠ "") :
    ((scheduleAgentAndDevice env lb).result = .ok (some agent, some dev) ↔
      strIn (env.specialPfx ++ String.take did 8) lb.name = true) ∧
    (strIn (env.specialPfx ++ String.take did 8) lb.name = false →
      (scheduleAgentAndDevice env lb).result = .error (.deviceDisabled lb.id did)) := by
  have key := @specialNameMatch_iff env.specialPfx lb.name did hpfx
  by_cases hm : specialNameMatch env.specialPfx lb.name did = true
  · have hres : (scheduleAgentAndDevice env lb).result = .ok (some agent, some dev) := by
      unfold scheduleAgentAndDevice
      rw [hb]
      simp [halive, hup, hd, hdev, hm]
    have hstr : strIn (env.specialPfx ++ String.take did 8) lb.name = true := key.mp hm
    refine ⟨⟨fun _ => hstr, fun _ => hres⟩, ?_⟩
    intro hfalse
    rw [hstr] at hfalse
    exact absurd hfalse (by simp)
  · have hm2 : specialNameMatch env.specialPfx lb.name did = false := by
      revert hm
      cases specialNameMatch env.specialPfx lb.name did <;> simp
    have hres : (scheduleAgentAndDevice env lb).result =
        .error (.deviceDisabled lb.id did) := by
      unfold scheduleAgentAndDevice
      rw [hb]
      simp [halive, hup, hd, hdev, hm2]
    refine ⟨⟨fun hok => ?_, fun hstr => ?_⟩, fun _ => hres⟩
    · rw [hres] at hok
      exact absurd hok (by simp)
    · exact absurd (key.mpr hstr) hm

/-- C2 witness: the load balancer named `special-abc12345-vip`, with
configured prefix `special-` and a disabled device whose id starts with
`abc12345`, is accepted. -/
theorem spec_c2_witness :
    (scheduleAgentAndDevice envC2 lbC2).result =
      .ok (some agentAliveEx, some devDisabledEx) := by
  have h := spec_c2_disabled_device_fallback envC2 lbC2 agentAliveEx
    "abc12345-dev-0001" devDisabledEx rfl rfl rfl rfl rfl (by decide)
  exact h.1.mpr (by decide)

/-- C5: for an existing binding whose agent is dead or disabled, resolve
commits a binding row whose `agent_id` is the newly scheduled agent and
whose `device_id` is unchanged, and the device it then loads and returns
is the one named by the pre-existing `device_id`. -/
theorem spec_c5_dead_agent_rebind_preserves_device
    (env : SchedEnv) (lb : LoadBalancer) (agent0 : Agent) (did : String)
    (hb : env.bindingLookup = some (agent0, did))
    (hdead : (agent0.alive && agent0.admin_state_up) = false) :
    (scheduleAgentAndDevice env lb).binding =
      some { loadbalancer_id := lb.id, agent_id := env.scheduleAgent.id,
             device_id := did } ∧
    (∀ dev : Device, env.loadDevice did = some dev → dev.admin_state_up = true →
      (scheduleAgentAndDevice env lb).result =
        .ok (some env.scheduleAgent, some dev)) := by
  constructor
  · unfold scheduleAgentAndDevice
    rw [hb]
    simp only [hdead, Bool.false_eq_true, if_false]
    cases hld : env.loadDevice did with
    | none => rfl
    | some dev =>
        rcases Bool.eq_false_or_eq_true dev.admin_state_up with hup | hup <;>
          rcases Bool.eq_false_or_eq_true (specialNameMatch env.specialPfx lb.name did)
            with hm | hm <;> simp [hup, hm]
  · intro dev hld hup
    unfold scheduleAgentAndDevice
    rw [hb]
    simp [hdead, hld, hup]

/-- C5 witness: the load balancer bound to the dead agent is rebound to
the scheduler agent while keeping device id `dev-old`, and resolve
returns the old device. -/
theorem spec_c5_witness :
    (scheduleAgentAndDevice envC5 lbC5).binding =
      some { loadbalancer_id := "lb-5", agent_id := "agent-new",
             device_id := "dev-old" } ∧
    (scheduleAgentAndDevice envC5 lbC5).result =
      .ok (some agentNewEx, some deviceOldEx) := by
  have h := spec_c5_dead_agent_rebind_preserves_device envC5 lbC5 agentDeadEx
    "dev-old" rfl rfl
  exact ⟨h.1, h.2 deviceOldEx rfl rfl⟩

/-- C6: with no existing binding, resolve returns `(none, none)` in
pending delete, fails with the inconsistency error in any state other
than pending create and pending delete, and in pending create proceeds
to fresh agent and device scheduling (ending either busy with nothing
committed or with the scheduled agent and device committed). -/
theorem spec_c6_no_binding_state_dispatch
    (env : SchedEnv) (lb : LoadBalancer)
    (hb : env.bindingLookup = none) :
    (lb.provisioning_status = PENDING_DELETE →
      (scheduleAgentAndDevice env lb).result = .ok (none, none) ∧
      (scheduleAgentAndDevice env lb).binding = none) ∧
    (lb.provisioning_status ≠ PENDING_CREATE →
      lb.provisioning_status ≠ PENDING_DELETE →
      (scheduleAgentAndDevice env lb).result =
        .error (.noBindingInconsistency lb.id)) ∧
    (lb.provisioning_status = PENDING_CREATE →
      ((scheduleAgentAndDevice env lb).result = .error (.schedulerBusy lb.id) ∧
        (scheduleAgentAndDevice env lb).binding = none) ∨
      ((scheduleAgentAndDevice env lb).result =
          .ok (some env.scheduleAgent, some env.scheduleDevice) ∧
        (scheduleAgentAndDevice env lb).binding =
          some { loadbalancer_id := lb.id, agent_id := env.scheduleAgent.id,
                 device_id := env.scheduleDevice.id })) := by
  have hdc : PENDING_DELETE ≠ PENDING_CREATE := by decide
  refine ⟨?_, ?_, ?_⟩
  · intro hdel
    unfold scheduleAgentAndDevice
    rw [hb, hdel, if_neg hdc, if_pos rfl]
    exact ⟨rfl, rfl⟩
  · intro hnc hnd
    unfold scheduleAgentAndDevice
    rw [hb, if_neg hnc, if_neg hnd]
  · intro hc
    unfold scheduleAgentAndDevice
    rw [hb, if_pos hc]
    rcases leaseLoop_cases lb.id env.scheduleAgent env.scheduleDevice
        env.leaseConflicts 0 with hh | hh <;> rw [hh]
    · exact Or.inl ⟨rfl, rfl⟩
    · exact Or.inr ⟨rfl, rfl⟩

/-- C6 witness: with no binding and pending delete, resolve returns the
empty pair. -/
theorem spec_c6_witness :
    (scheduleAgentAndDevice envC6 lbC6).result = .ok (none, none) := by
  have h := spec_c6_no_binding_state_dispatch envC6 lbC6 rfl
  exact (h.1 rfl).1

/-- C3: when the deadlock backoff intervals (each drawn in `[0, 1)`)
accumulate past the 30-unit ceiling, resolve on the fresh-scheduling path
raises the scheduler-busy error and commits no binding row (hence no
device id). -/
theorem spec_c3_lease_retry_busy_ceiling
    (env : SchedEnv) (lb : LoadBalancer)
    (hb : env.bindingLookup = none)
    (hc : lb.provisioning_status = PENDING_CREATE)
    (_hiv : ∀ i ∈ env.leaseConflicts, 0 ≤ i ∧ i < 1)
    (hsum : maxWait < env.leaseConflicts.sum) :
    (scheduleAgentAndDevice env lb).result = .error (.schedulerBusy lb.id) ∧
    (scheduleAgentAndDevice env lb).binding = none := by
  have hbusy := leaseLoop_busy_of_sum lb.id env.scheduleAgent env.scheduleDevice
    env.leaseConflicts 0 (by norm_num [maxWait]) (by rw [zero_add]; exact hsum)
  unfold scheduleAgentAndDevice
  rw [hb, if_pos hc, hbusy]
  exact ⟨rfl, rfl⟩

/-- C3 witness: 31 deadlocks with backoff 0.99 each accumulate to 30.69,
past the ceiling, so resolve is busy and commits nothing. -/
theorem spec_c3_witness :
    (scheduleAgentAndDevice envC3 lbC3).result = .error (.schedulerBusy "lb-3") ∧
    (scheduleAgentAndDevice envC3 lbC3).binding = none := by
  apply spec_c3_lease_retry_busy_ceiling envC3 lbC3 rfl rfl
  · intro i hi
    have hrep : i = (99 : ℚ) / 100 := by
      have : i ∈ List.replicate 31 ((99 : ℚ) / 100) := hi
      exact List.eq_of_mem_replicate this
    rw [hrep]
    norm_num
  · show maxWait < (List.replicate 31 ((99 : ℚ) / 100)).sum
    rw [List.sum_replicate, nsmul_eq_mul]
    norm_num [maxWait]

/-- C4 counterexample: the placeholder binding row is inserted with
device id `"unknown"`, not `"unassigned"` as the claim states. -/
theorem spec_c4_counterexample :
    (placeholderBinding "lb-4" "agent-1").device_id = "unknown" ∧
    ¬ (placeholderBinding "lb-4" "agent-1").device_id = "unassigned" := by
  exact ⟨rfl, by decide⟩

/-- C4 amended: the placeholder binding row is inserted with the sentinel
device id `"unknown"` before a device is leased, the locked query of the
leasing loop filters on that same sentinel, and a binding committed by a
successful lease carries the scheduled (real) device id. -/
theorem spec_c4_amended_sentinel_unknown
    (lbId agentId : String) (agent : Agent) (dev : Device) (conflicts : List ℚ) :
    (placeholderBinding lbId agentId).device_id = placeholderDeviceId ∧
    placeholderDeviceId = "unknown" ∧
    lockFilterDeviceId = placeholderDeviceId ∧
    (∀ b d, leaseLoop lbId agent dev 0 conflicts = .ok (b, d) →
      b.device_id = dev.id ∧ d = dev) := by
  refine ⟨rfl, rfl, rfl, ?_⟩
  intro b d h
  rcases leaseLoop_cases lbId agent dev conflicts 0 with hh | hh <;> rw [hh] at h
  · exact absurd h (by simp)
  · simp only [Except.ok.injEq, Prod.mk.injEq] at h
    obtain ⟨h1, h2⟩ := h
    subst h2
    rw [← h1]
    exact ⟨rfl, rfl⟩

/-- C4 amended witness: a conflict-free lease for `lb-4` commits the row
with the scheduled device id `dev-9`. -/
theorem spec_c4_witness :
    ({ loadbalancer_id := "lb-4", agent_id := "agent-new",
       device_id := "dev-9" } : Binding).device_id = deviceEx.id := by
  exact ((spec_c4_amended_sentinel_unknown "lb-4" "agent-1" agentNewEx deviceEx []).2.2.2
    { loadbalancer_id := "lb-4", agent_id := "agent-new", device_id := "dev-9" }
    deviceEx rfl).1

/-- C10: the append helpers leave the service untouched when handed an
absent entity: no listener leaves the listener list unchanged, no pool
leaves the pool and monitor lists unchanged, and a pool without a monitor
leaves the monitor list unchanged. -/
theorem spec_c10_absent_entity_frame (pm : Nat) (db : DBOracle) (s : Service) :
    appendListeners pm db s none = s ∧
    appendPoolsMonitors pm db s none = s ∧
    (∀ p : Pool, p.healthmonitor = none →
      (appendPoolsMonitors pm db s (some p)).healthmonitors = s.healthmonitors) := by
  refine ⟨rfl, rfl, ?_⟩
  intro p hp
  simp [appendPoolsMonitors, hp]

/-- C10 witness: the empty service descriptor is unchanged by absent
entities and by a pool without a monitor. -/
theorem spec_c10_witness :
    appendListeners 3 dbEx svc0 none = svc0 ∧
    appendPoolsMonitors 3 dbEx svc0 none = svc0 ∧
    (appendPoolsMonitors 3 dbEx svc0 (some poolNoMonEx)).healthmonitors =
      svc0.healthmonitors := by
  obtain ⟨h1, h2, h3⟩ := spec_c10_absent_entity_frame 3 dbEx svc0
  exact ⟨h1, h2, h3 poolNoMonEx rfl⟩

/-- C8: appending a pool adds exactly one pool entry whose member id list
has one entry per pool member, whose policy id list mirrors the pool
policies, and whose session-persistence payload is present exactly when
the pool has one; a monitor entry is appended only when the pool has a
monitor and then carries the owning pool id; the listener list is not
touched; and appending a listener adds exactly one listener entry (with
its policy ids and optional default pool id) touching nothing else, so no
entity beyond the one passed in ever enters the descriptor. -/
theorem spec_c8_pool_monitor_descriptor_shape
    (pm : Nat) (db : DBOracle) (s : Service) (p : Pool) :
    (∃ e : PoolEntry,
      (appendPoolsMonitors pm db s (some p)).pools = s.pools ++ [e] ∧
      e.member_ids = p.members.map Member.id ∧
      e.l7_policy_ids = p.l7_policies.map L7Policy.id ∧
      e.session_persistence = p.session_persistence) ∧
    (appendPoolsMonitors pm db s (some p)).listeners = s.listeners ∧
    (p.healthmonitor = none →
      (appendPoolsMonitors pm db s (some p)).healthmonitors = s.healthmonitors) ∧
    (∀ hm, p.healthmonitor = some hm →
      ∃ m : MonitorEntry,
        (appendPoolsMonitors pm db s (some p)).healthmonitors =
          s.healthmonitors ++ [m] ∧
        m.pool_id = p.id) ∧
    (∀ l : Listener, ∃ le : ListenerEntry,
      (appendListeners pm db s (some l)).listeners = s.listeners ++ [le] ∧
      le.l7_policy_ids = l.l7_policies.map L7Policy.id ∧
      le.default_pool_id = l.default_pool.map Pool.id ∧
      (appendListeners pm db s (some l)).pools = s.pools ∧
      (appendListeners pm db s (some l)).healthmonitors = s.healthmonitors) := by
  refine ⟨?_, ?_, ?_, ?_, ?_⟩
  · refine ⟨{ id := (if pm = 3 then p else db.getPool p.id).id,
              member_ids := p.members.map Member.id,
              l7_policy_ids := p.l7_policies.map L7Policy.id,
              session_persistence := p.session_persistence }, ?_, rfl, rfl, rfl⟩
    cases hp : p.healthmonitor <;> simp [appendPoolsMonitors, hp]
  · cases hp : p.healthmonitor <;> simp [appendPoolsMonitors, hp]
  · intro hp
    simp [appendPoolsMonitors, hp]
  · intro hm hp
    refine ⟨{ id := (if pm = 3 then hm else db.getHealthmonitor hm.id).id,
              pool_id := p.id }, ?_, rfl⟩
    simp [appendPoolsMonitors, hp]
  · intro l
    refine ⟨{ id := (if pm = 3 then l else db.getListener l.id).id,
              l7_policy_ids := l.l7_policies.map L7Policy.id,
              default_pool_id := l.default_pool.map Pool.id },
      ?_, rfl, rfl, ?_, ?_⟩ <;> simp [appendListeners]

/-- C8 witness: the pool with three members and one monitor produces one
pool entry with a member list of length 3 and one monitor entry stamped
with the owning pool id. -/
theorem spec_c8_witness :
    ((appendPoolsMonitors 3 dbEx svc0 (some poolEx)).pools.map
        (fun e => List.length e.member_ids)) = [3] ∧
    ((appendPoolsMonitors 3 dbEx svc0 (some poolEx)).healthmonitors.map
        MonitorEntry.pool_id) = ["pool1"] := by
  obtain ⟨⟨e, he, hmem, -, -⟩, -, -, hmon, -⟩ :=
    spec_c8_pool_monitor_descriptor_shape 3 dbEx svc0 poolEx
  obtain ⟨m, hm1, hm2⟩ := hmon { id := "hm1" } rfl
  constructor
  · rw [he]
    simp [svc0, hmem, poolEx]
  · rw [hm1]
    simp [svc0, hm2, poolEx]

/-- C9 counterexample: an ACL bind whose binding resolution raises is
re-raised (wrapped into an ACL bind error) with no status update issued
at all, contradicting the claim that every lifecycle operation including
ACL binds performs an ERROR status update before re-raising. -/
theorem spec_c9_counterexample :
    addAclBind "f5" { id := "lb1", provider := "f5" } (.error "resolve failed") =
      ([], .error "ACLBindError: resolve failed") := by
  rfl

/-- C9 amended: for the seven entity managers any exception during
resolution, build or dispatch triggers ERROR status updates (the owning
load balancer when passed, and the entity) and is re-raised unchanged,
while a success issues no status update; ACL bind operations re-raise a
wrapped error without any status update, and a provider mismatch is a
silent no-op. -/
theorem spec_c9_amended_status_update_policy
    (modelKind : Option String) (entityId lbIdv : String) (e : String)
    (provider : String) (lb : LBDict) (body : Except String Unit) :
    ((lifecycleOp modelKind entityId (some lbIdv) (.error e)).2 = .error e ∧
      { kind := "loadbalancer", entity_id := lbIdv, status := ERROR } ∈
        (lifecycleOp modelKind entityId (some lbIdv) (.error e)).1 ∧
      (∀ kind, modelKind = some kind →
        { kind := kind, entity_id := entityId, status := ERROR } ∈
          (lifecycleOp modelKind entityId (some lbIdv) (.error e)).1)) ∧
    lifecycleOp modelKind entityId (some lbIdv) (.ok ()) = ([], .ok ()) ∧
    (lb.provider = provider →
      addAclBind provider lb (.error e) =
        ([], .error ("ACLBindError: " ++ e))) ∧
    (lb.provider ≠ provider → addAclBind provider lb body = ([], .ok ())) := by
  refine ⟨⟨rfl, ?_, ?_⟩, rfl, ?_, ?_⟩
  · simp [lifecycleOp, handleEntityError]
  · intro kind hk
    simp [lifecycleOp, handleEntityError, hk]
  · intro hp
    simp [addAclBind, hp]
  · intro hp
    simp [addAclBind, hp]

/-- C9 amended witness: a failed listener update marks the listener as
ERROR and re-raises, while a provider-mismatched ACL bind is a silent
no-op. -/
theorem spec_c9_witness :
    (lifecycleOp (some "listener") "lst-1" (some "lb-9") (.error "boom")).2 =
      .error "boom" ∧
    { kind := "listener", entity_id := "lst-1", status := ERROR } ∈
      (lifecycleOp (some "listener") "lst-1" (some "lb-9") (.error "boom")).1 ∧
    addAclBind "f5" { id := "lb1", provider := "common" } (.ok ()) =
      ([], .ok ()) := by
  obtain ⟨⟨h1, -, h3⟩, -, -, h4⟩ :=
    spec_c9_amended_status_update_policy (some "listener") "lst-1" "lb-9" "boom"
      "f5" { id := "lb1", provider := "common" } (.ok ())
  exact ⟨h1, h3 "listener" rfl, h4 (by decide)⟩

/-! Helper lemmas on the insertion-ordered dictionary used by
`update_acl_group`. -/

theorem dictUpsert_keys_mem {α : Type} (k k' : String) (v : α) :
    ∀ l : List (String × α),
      (k' ∈ (dictUpsert k v l).map Prod.fst ↔ k' = k ∨ k' ∈ l.map Prod.fst) := by
  intro l
  induction l with
  | nil => simp [dictUpsert]
  | cons q rest ih =>
      obtain ⟨k0, v0⟩ := q
      by_cases h : k0 = k
      · subst h
        rw [show dictUpsert k0 v ((k0, v0) :: rest) = (k0, v) :: rest from by
          simp [dictUpsert]]
        simp only [List.map_cons, List.mem_cons]
        tauto
      · rw [show dictUpsert k v ((k0, v0) :: rest) =
            (k0, v0) :: dictUpsert k v rest from by simp [dictUpsert, h]]
        simp only [List.map_cons, List.mem_cons, ih]
        tauto

theorem dictUpsert_keys_nodup {α : Type} (k : String) (v : α) :
    ∀ l : List (String × α), (l.map Prod.fst).Nodup →
      ((dictUpsert k v l).map Prod.fst).Nodup := by
  intro l
  induction l with
  | nil => intro _; simp [dictUpsert]
  | cons q rest ih =>
      obtain ⟨k0, v0⟩ := q
      intro hnd
      simp only [List.map_cons, List.nodup_cons] at hnd
      obtain ⟨hk0, hrest⟩ := hnd
      by_cases h : k0 = k
      · subst h
        rw [show dictUpsert k0 v ((k0, v0) :: rest) = (k0, v) :: rest from by
          simp [dictUpsert]]
        simp only [List.map_cons, List.nodup_cons]
        exact ⟨hk0, hrest⟩
      · rw [show dictUpsert k v ((k0, v0) :: rest) =
            (k0, v0) :: dictUpsert k v rest from by simp [dictUpsert, h]]
        simp only [List.map_cons, List.nodup_cons]
        refine ⟨?_, ih hrest⟩
        intro hmem
        rcases (dictUpsert_keys_mem k k0 v rest).mp hmem with h1 | h2
        · exact h h1
        · exact hk0 h2

theorem dictUpsert_mem_entries {α : Type} (k : String) (v : α) :
    ∀ l : List (String × α), (l.map Prod.fst).Nodup →
      ∀ p : String × α, p ∈ dictUpsert k v l →
        p = (k, v) ∨ (p ∈ l ∧ p.1 ≠ k) := by
  intro l
  induction l with
  | nil =>
      intro _ p hp
      simp only [dictUpsert, List.mem_singleton] at hp
      exact Or.inl hp
  | cons q rest ih =>
      obtain ⟨k0, v0⟩ := q
      intro hnd p hp
      simp only [List.map_cons, List.nodup_cons] at hnd
      obtain ⟨hk0, hrest⟩ := hnd
      by_cases h : k0 = k
      · subst h
        rw [show dictUpsert k0 v ((k0, v0) :: rest) = (k0, v) :: rest from by
          simp [dictUpsert]] at hp
        rcases List.mem_cons.mp hp with h1 | h2
        · exact Or.inl h1
        · right
          refine ⟨List.mem_cons_of_mem _ h2, ?_⟩
          intro hpk
          apply hk0
          rw [← hpk]
          exact List.mem_map_of_mem Prod.fst h2
      · rw [show dictUpsert k v ((k0, v0) :: rest) =
            (k0, v0) :: dictUpsert k v rest from by simp [dictUpsert, h]] at hp
        rcases List.mem_cons.mp hp with h1 | h2
        · right
          refine ⟨List.mem_cons.mpr (Or.inl h1), ?_⟩
          rw [h1]
          exact h
        · rcases ih hrest p h2 with h3 | ⟨h4, h5⟩
          · exact Or.inl h3
          · exact Or.inr ⟨List.mem_cons_of_mem _ h4, h5⟩

/-! Helper lemmas on the `service_devices` fold of `update_acl_group`. -/

theorem aclFold_keys_nodup (resolve : LBDict → String × Device) (g : String) :
    ∀ (lbs : List LBDict) (acc : List (String × ACLDispatch)),
      (acc.map Prod.fst).Nodup →
      ((lbs.foldl (aclStep resolve g) acc).map Prod.fst).Nodup := by
  intro lbs
  induction lbs with
  | nil => intro acc h; simpa using h
  | cons lb rest ih =>
      intro acc h
      simp only [List.foldl_cons]
      exact ih _ (dictUpsert_keys_nodup _ _ acc h)

theorem aclFold_keys_mem (resolve : LBDict → String × Device) (g : String) :
    ∀ (lbs : List LBDict) (acc : List (String × ACLDispatch)) (k : String),
      (k ∈ (lbs.foldl (aclStep resolve g) acc).map Prod.fst ↔
        k ∈ acc.map Prod.fst ∨ ∃ lb ∈ lbs, (resolve lb).2.id = k) := by
  intro lbs
  induction lbs with
  | nil => intro acc k; simp
  | cons lb rest ih =>
      intro acc k
      simp only [List.foldl_cons]
      rw [ih]
      rw [show aclStep resolve g acc lb = dictUpsert ((resolve lb).2.id)
        { agent_host := (resolve lb).1
          service := { loadbalancer := lb, device := (resolve lb).2 }
          acl_group := g } acc from rfl]
      rw [dictUpsert_keys_mem]
      simp only [List.mem_cons]
      constructor
      · rintro ((h1 | h2) | ⟨lb2, hlb2, hp⟩)
        · exact Or.inr ⟨lb, Or.inl rfl, h1.symm⟩
        · exact Or.inl h2
        · exact Or.inr ⟨lb2, Or.inr hlb2, hp⟩
      · rintro (h1 | ⟨lb2, hlb2 | hlb2, hp⟩)
        · exact Or.inl (Or.inr h1)
        · subst hlb2
          exact Or.inl (Or.inl hp.symm)
        · exact Or.inr ⟨lb2, hlb2, hp⟩

theorem aclFold_entries (resolve : LBDict → String × Device) (g : String) :
    ∀ (lbs : List LBDict) (acc : List (String × ACLDispatch)),
      (acc.map Prod.fst).Nodup →
      ∀ p ∈ lbs.foldl (aclStep resolve g) acc,
        p ∈ acc ∨ ∃ lb ∈ lbs,
          p = ((resolve lb).2.id,
            { agent_host := (resolve lb).1
              service := { loadbalancer := lb, device := (resolve lb).2 }
              acl_group := g }) := by
  intro lbs
  induction lbs with
  | nil => intro acc _ p hp; exact Or.inl hp
  | cons lb rest ih =>
      intro acc hnd p hp
      simp only [List.foldl_cons] at hp
      rcases ih (aclStep resolve g acc lb) (dictUpsert_keys_nodup _ _ acc hnd)
        p hp with h1 | ⟨lb2, h2, h3⟩
      · rcases dictUpsert_mem_entries _ _ acc hnd p h1 with h4 | ⟨h5, _⟩
        · exact Or.inr ⟨lb, List.mem_cons_self lb rest, h4⟩
        · exact Or.inl h5
      · exact Or.inr ⟨lb2, List.mem_cons_of_mem _ h2, h3⟩

/-- C7 counterexample: for three load balancers where `lb1` and `lb2`
resolve to device `devA` and `lb3` to `devB`, the batch issues exactly two
dispatch calls, but the call for `devA` carries only the service of `lb2`
(the dictionary entry was overwritten), so no dispatched call reflects
the binding of `lb1` — contradicting the claim that the device call
reflects both load balancers. -/
theorem spec_c7_counterexample :
    updateAclGroup "f5" resolveEx "acl-g" [lbD1, lbD2, lbD3] =
      [{ agent_host := "h1", service := { loadbalancer := lbD2, device := devA },
         acl_group := "acl-g" },
       { agent_host := "h2", service := { loadbalancer := lbD3, device := devB },
         acl_group := "acl-g" }] ∧
    (∀ d ∈ updateAclGroup "f5" resolveEx "acl-g" [lbD1, lbD2, lbD3],
      ¬ d.service.loadbalancer = lbD1) := by
  constructor
  · rfl
  · decide

/-- C7 amended: the ACL-group batch issues exactly one dispatch call per
distinct resolved device id of the provider-filtered load balancers (so
the call count equals the number of distinct device ids), and the single
call for a device carries the agent host, group and service of exactly
one of the load balancers that resolved to that device (the most recently
resolved one), not of all of them. -/
theorem spec_c7_amended_batch_by_device
    (provider aclGroup : String) (resolve : LBDict → String × Device)
    (lbs : List LBDict) :
    ((updateAclGroup provider resolve aclGroup lbs).map
        (fun d => d.service.device.id)).Nodup ∧
    (∀ did : String,
      ((∃ d ∈ updateAclGroup provider resolve aclGroup lbs,
          d.service.device.id = did) ↔
        (∃ lb ∈ lbs.filter (fun lb => lb.provider = provider),
          (resolve lb).2.id = did))) ∧
    (updateAclGroup provider resolve aclGroup lbs).length =
      (((lbs.filter (fun lb => lb.provider = provider)).map
          (fun lb => (resolve lb).2.id)).dedup).length ∧
    (∀ d ∈ updateAclGroup provider resolve aclGroup lbs,
      ∃ lb ∈ lbs.filter (fun lb => lb.provider = provider),
        (resolve lb).2.id = d.service.device.id ∧
        d.service.loadbalancer = lb ∧
        d.agent_host = (resolve lb).1 ∧ d.acl_group = aclGroup) := by
  by_cases hempty : (lbs.filter (fun lb => lb.provider = provider)).isEmpty
  · have hout : updateAclGroup provider resolve aclGroup lbs = [] := by
      unfold updateAclGroup
      rw [if_pos hempty]
    have hnil : lbs.filter (fun lb => lb.provider = provider) = [] :=
      List.isEmpty_iff.mp hempty
    rw [hout, hnil]
    refine ⟨by simp, ?_, by simp, by simp⟩
    intro did
    simp
  · have hout : updateAclGroup provider resolve aclGroup lbs =
        (((lbs.filter (fun lb => lb.provider = provider)).foldl
          (aclStep resolve aclGroup) []).map Prod.snd) := by
      unfold updateAclGroup
      rw [if_neg hempty]
    have hprov := aclFold_entries resolve aclGroup
      (lbs.filter (fun lb => lb.provider = provider)) [] (by simp)
    have hkeys : ((updateAclGroup provider resolve aclGroup lbs).map
        (fun d => d.service.device.id)) =
        (((lbs.filter (fun lb => lb.provider = provider)).foldl
          (aclStep resolve aclGroup) []).map Prod.fst) := by
      rw [hout, List.map_map]
      apply List.map_congr_left
      intro p hp
      rcases hprov p hp with h | ⟨lb, -, h⟩
      · exact absurd h (List.not_mem_nil p)
      · rw [h]
        rfl
    have hnd : (((lbs.filter (fun lb => lb.provider = provider)).foldl
        (aclStep resolve aclGroup) []).map Prod.fst).Nodup :=
      aclFold_keys_nodup resolve aclGroup _ [] (by simp)
    have hmemiff : ∀ did : String,
        ((∃ d ∈ updateAclGroup provider resolve aclGroup lbs,
            d.service.device.id = did) ↔
          (∃ lb ∈ lbs.filter (fun lb => lb.provider = provider),
            (resolve lb).2.id = did)) := by
      intro did
      have h1 : (∃ d ∈ updateAclGroup provider resolve aclGroup lbs,
          d.service.device.id = did) ↔
          did ∈ ((updateAclGroup provider resolve aclGroup lbs).map
            (fun d => d.service.device.id)) := by
        rw [List.mem_map]
      rw [h1, hkeys, aclFold_keys_mem]
      simp
    refine ⟨?_, hmemiff, ?_, ?_⟩
    · rw [hkeys]
      exact hnd
    · have hlen1 : (updateAclGroup provider resolve aclGroup lbs).length =
          ((updateAclGroup provider resolve aclGroup lbs).map
            (fun d => d.service.device.id)).length := by
        rw [List.length_map]
      have hfin : ((updateAclGroup provider resolve aclGroup lbs).map
            (fun d => d.service.device.id)).toFinset =
          (((lbs.filter (fun lb => lb.provider = provider)).map
            (fun lb => (resolve lb).2.id))).toFinset := by
        ext x
        simp only [List.mem_toFinset, List.mem_map]
        constructor
        · intro hx
          rcases hx with ⟨d, hd, hdx⟩
          rcases (hmemiff x).mp ⟨d, hd, hdx⟩ with ⟨lb, hlb, hlbx⟩
          exact ⟨lb, hlb, hlbx⟩
        · intro hx
          rcases hx with ⟨lb, hlb, hlbx⟩
          rcases (hmemiff x).mpr ⟨lb, hlb, hlbx⟩ with ⟨d, hd, hdx⟩
          exact ⟨d, hd, hdx⟩
      rw [hlen1, ← List.toFinset_card_of_nodup (by rw [hkeys]; exact hnd), hfin,
        List.card_toFinset]
    · intro d hd
      rw [hout] at hd
      rcases List.mem_map.mp hd with ⟨p, hp, hpd⟩
      rcases hprov p hp with h | ⟨lb, hlb, h⟩
      · exact absurd h (List.not_mem_nil p)
      · refine ⟨lb, hlb, ?_⟩
        rw [← hpd, h]
        exact ⟨rfl, rfl, rfl, rfl⟩

/-- C7 amended witness: in the three-load-balancer example the batch
issues 2 calls (one per distinct device) and the `devA` call carries
exactly one of the two load balancers bound to it. -/
theorem spec_c7_witness :
    (updateAclGroup "f5" resolveEx "acl-g" [lbD1, lbD2, lbD3]).length =
      (([lbD1, lbD2, lbD3].filter (fun lb => lb.provider = "f5")).map
        (fun lb => (resolveEx lb).2.id)).dedup.length ∧
    ((updateAclGroup "f5" resolveEx "acl-g" [lbD1, lbD2, lbD3]).map
      (fun d => d.service.device.id)).Nodup := by
  obtain ⟨h1, -, h3, -⟩ :=
    spec_c7_amended_batch_by_device "f5" "acl-g" resolveEx [lbD1, lbD2, lbD3]
  exact ⟨h3, h1⟩

end DriverV2
